import Mathlib

/-
Verification of the analysis pipeline of criterion.rs (src/analysis/mod.rs
and src/report.rs) against its natural-language specification.

The embedding models f64 arithmetic over ℚ (exact field arithmetic; IEEE
rounding is abstracted away).  Square roots are not rational, so every
definition that needs the source's `sqrt` takes an explicit function
`sq : ℚ → ℚ` standing for it; no claim below depends on the numeric value
of a square root, only on which data it is applied to.

Bootstrap resampling draws random index vectors; the randomness is made
explicit by passing the drawn index vectors (`draws : List (List ℕ)`) as an
argument, one index vector per resample.

Filesystem effects and plot/comparison calls are modelled by an explicit
event trace plus a small per-benchmark directory state.
-/

namespace Crit

/-- The closed tag set of recognized statistics (`estimate.rs`, per spec §3:
a Statistic is one of Mean, Median, MedianAbsDev, StdDev, Slope). -/
inductive Statistic where
  | Mean
  | Median
  | MedianAbsDev
  | StdDev
  | Slope
deriving DecidableEq

/-- Confidence interval record (spec §3, `Estimate`). -/
structure ConfidenceInterval where
  confidence_level : ℚ
  lower_bound : ℚ
  upper_bound : ℚ
deriving DecidableEq

/-- Estimate record (spec §3): point estimate, standard error, CI. -/
structure Estimate where
  confidence_interval : ConfidenceInterval
  point_estimate : ℚ
  standard_error : ℚ
deriving DecidableEq

/-- Modelled from the spec: `Distributions` (estimate.rs is not under src/)
is a mapping keyed by Statistic; modelled as an association list. -/
abbrev Distributions := List (Statistic × List ℚ)

/-- Modelled from the spec: `Estimates` (estimate.rs is not under src/)
is a mapping keyed by Statistic; modelled as an association list. -/
abbrev Estimates := List (Statistic × Estimate)

/-- Modelled from the spec: map insertion for the Statistic-keyed maps
(spec §3: each key appears at most once): replace the value when the key is
present, otherwise add the binding. -/
def mapInsert {α : Type} (m : List (Statistic × α)) (k : Statistic) (v : α) :
    List (Statistic × α) :=
  if m.any (fun p => decide (p.1 = k)) then
    m.map (fun p => if p.1 = k then (k, v) else p)
  else
    m ++ [(k, v)]

/-- Sorted copy of a sample (spec §3, `Percentiles<T>`). -/
def sortQ (xs : List ℚ) : List ℚ :=
  List.insertionSort (fun a b => a ≤ b) xs

/-- Modelled from the spec: `Percentiles::at(p)` (stats crate is not under
src/): linear interpolation between adjacent order statistics of the sorted
sample, with the index clamped on degenerate input (spec §3, §7). -/
def percentileAt (sorted : List ℚ) (p : ℚ) : ℚ :=
  let n := sorted.length
  let rank := p * ((n : ℚ) - 1) / 100
  let i := (Rat.floor rank).toNat
  let d := rank - (i : ℚ)
  let xi := sorted.getD i 0
  let xi1 := sorted.getD (i + 1) xi
  xi + d * (xi1 - xi)

/-- Modelled from the spec: `Sample::mean` (stats crate is not under src/):
the sum divided by the length (spec §8). -/
def meanQ (xs : List ℚ) : ℚ :=
  xs.sum / (xs.length : ℚ)

/-- Bessel-corrected variance with a given mean (spec §4.1: divisor n − 1). -/
def besselVariance (xs : List ℚ) (m : ℚ) : ℚ :=
  (xs.map (fun x => (x - m) ^ 2)).sum / ((xs.length : ℚ) - 1)

/-- Modelled from the spec: `std_dev(mean?)` of a Sample or Distribution
(stats crate is not under src/): square root of the Bessel-corrected
variance, with an optional precomputed mean (spec §3, §4.1).  `sq` stands
for the square root. -/
def stdDevQ (sq : ℚ → ℚ) (xs : List ℚ) (m : Option ℚ) : ℚ :=
  sq (besselVariance xs (m.getD (meanQ xs)))

/-- Modelled from the spec: the median is the 50th percentile of the sorted
sample (spec §4.1). -/
def medianQ (xs : List ℚ) : ℚ :=
  percentileAt (sortQ xs) 50

/-- Modelled from the spec: `median_abs_dev(median?)` (stats crate is not
under src/): the median of the absolute deviations from the median
(spec §4.1, glossary). -/
def medianAbsDev (xs : List ℚ) (m : Option ℚ) : ℚ :=
  let med := m.getD (medianQ xs)
  medianQ (xs.map (fun x => |x - med|))

/-- One bootstrap resample of a univariate sample: the drawn index vector
applied to the sample (spec §4.2; out-of-range indices never occur in a
real draw and default to 0). -/
def resampleQ (xs : List ℚ) (ix : List ℕ) : List ℚ :=
  ix.map (fun i => xs.getD i 0)

/-- Modelled from the spec: `Distribution::confidence_interval(cl)` (stats
crate is not under src/): the percentile method, taking the (1−cl)/2 and
1−(1−cl)/2 percentiles of the bootstrap distribution (spec §3, glossary). -/
def confidenceInterval (dist : List ℚ) (cl : ℚ) : ℚ × ℚ :=
  let s := sortQ dist
  (percentileAt s (50 * (1 - cl)), percentileAt s (100 - 50 * (1 - cl)))

/-- Bivariate data: paired vectors, `x` the iteration counts and `y` the
elapsed times (spec §3). -/
structure Data where
  x : List ℚ
  y : List ℚ
deriving DecidableEq

/-- The slope of a through-origin regression (stats crate newtype
`Slope(f64)`; the field `val` plays the role of `.0`). -/
structure Slope where
  val : ℚ
deriving DecidableEq

/-- Modelled from the spec: `Slope::fit` (stats crate is not under src/):
OLS through the origin, β̂ = Σ(xᵢ·yᵢ) / Σ(xᵢ²) (spec §4.4). -/
def Slope.fit (d : Data) : Slope :=
  ⟨(List.zipWith (fun a b => a * b) d.x d.y).sum / (d.x.map (fun a => a ^ 2)).sum⟩

/-- Modelled from the spec: `Slope::r_squared` (stats crate is not under
src/): R² through the origin, 1 − Σ(yᵢ − β·xᵢ)² / Σ(yᵢ²) (spec §4.4). -/
def Slope.r_squared (s : Slope) (d : Data) : ℚ :=
  1 - (List.zipWith (fun a b => (b - s.val * a) ^ 2) d.x d.y).sum /
      (d.y.map (fun b => b ^ 2)).sum

/-- One paired bootstrap resample of bivariate data: both columns are
indexed by the same drawn index vector (spec §4.2). -/
def resampleData (d : Data) (ix : List ℕ) : Data :=
  ⟨ix.map (fun i => d.x.getD i 0), ix.map (fun i => d.y.getD i 0)⟩

/-- A Sample annotated with its Tukey fences (LS, LM, HM, HS); the
per-observation labels are derived from the fences (spec §3,
`LabeledSample`).  The underlying sample is kept unchanged. -/
structure LabeledSample where
  sample : List ℚ
  fences : ℚ × ℚ × ℚ × ℚ
deriving DecidableEq

/-- Modelled from the spec: `tukey::classify` (stats crate is not under
src/): Q1 and Q3 via the Percentiles view, IQR = Q3 − Q1, fences
(Q1 − 3·IQR, Q1 − 1.5·IQR, Q3 + 1.5·IQR, Q3 + 3·IQR) (spec §4.3). -/
def tukeyClassify (xs : List ℚ) : LabeledSample :=
  let s := sortQ xs
  let q1 := percentileAt s 25
  let q3 := percentileAt s 75
  let iqr := q3 - q1
  ⟨xs, (q1 - 3 * iqr, q1 - 3 / 2 * iqr, q3 + 3 / 2 * iqr, q3 + 3 * iqr)⟩

/-- Outlier label of one observation (spec §3, §4.3). -/
inductive Label where
  | lowSevere
  | lowMild
  | normal
  | highMild
  | highSevere
deriving DecidableEq

/-- Modelled from the spec: the label of one observation against the fences
(spec §3): Low-Severe below LS, Low-Mild in [LS, LM), Normal otherwise,
symmetric above. -/
def classifyObs (f : ℚ × ℚ × ℚ × ℚ) (x : ℚ) : Label :=
  if x < f.1 then Label.lowSevere
  else if x < f.2.1 then Label.lowMild
  else if x ≤ f.2.2.1 then Label.normal
  else if x ≤ f.2.2.2 then Label.highMild
  else Label.highSevere

/-- Modelled from the spec: `LabeledSample::count` (stats crate is not under
src/): the tuple (low severe, low mild, normal, high mild, high severe) of
label counts (spec §4.3). -/
def LabeledSample.count (s : LabeledSample) : ℕ × ℕ × ℕ × ℕ × ℕ :=
  ( s.sample.countP (fun x => decide (classifyObs s.fences x = Label.lowSevere)),
    s.sample.countP (fun x => decide (classifyObs s.fences x = Label.lowMild)),
    s.sample.countP (fun x => decide (classifyObs s.fences x = Label.normal)),
    s.sample.countP (fun x => decide (classifyObs s.fences x = Label.highMild)),
    s.sample.countP (fun x => decide (classifyObs s.fences x = Label.highSevere)) )

/-- Total number of outliers of a labeled sample: low severe + low mild +
high mild + high severe (src/report.rs, `outliers`). -/
def totalOutliers (s : LabeledSample) : ℕ :=
  match s.count with
  | (los, lom, _, him, his) => los + lom + him + his

/-- The four outlier bands named by the reporter (src/report.rs). -/
inductive BandLabel where
  | lowSevere
  | lowMild
  | highMild
  | highSevere
deriving DecidableEq

/-- The count of one band of a labeled sample. -/
def bandCount (s : LabeledSample) : BandLabel → ℕ
  | BandLabel.lowSevere => s.count.1
  | BandLabel.lowMild => s.count.2.1
  | BandLabel.highMild => s.count.2.2.2.1
  | BandLabel.highSevere => s.count.2.2.2.2

/-- One line of reporter output (src/report.rs), with the formatted
quantities kept as exact values. -/
inductive Line where
  | outlierSummary (n total : ℕ) (pct : ℚ)
  | outlierBand (n : ℕ) (pct : ℚ) (band : BandLabel)
  | slopeCI (lb ub : ℚ)
  | rSquaredLine (lb ub : ℚ)
  | absLine (s : Statistic) (lb ub : ℚ)
deriving DecidableEq

/-- `report::outliers` (src/report.rs lines 28-54): count the labels; if
there are no outliers produce nothing; otherwise a summary line followed by
one line per non-empty band, in the order low severe, low mild, high mild,
high severe. -/
def reportOutliers (s : LabeledSample) : List Line :=
  match s.count with
  | (los, lom, _, him, his) =>
    let noutliers := los + lom + him + his
    let n := s.sample.length
    if noutliers = 0 then []
    else
      Line.outlierSummary noutliers n (100 * (noutliers : ℚ) / (n : ℚ)) ::
      ((if los ≠ 0 then
          [Line.outlierBand los (100 * (los : ℚ) / (n : ℚ)) BandLabel.lowSevere]
        else []) ++
       (if lom ≠ 0 then
          [Line.outlierBand lom (100 * (lom : ℚ) / (n : ℚ)) BandLabel.lowMild]
        else []) ++
       (if him ≠ 0 then
          [Line.outlierBand him (100 * (him : ℚ) / (n : ℚ)) BandLabel.highMild]
        else []) ++
       (if his ≠ 0 then
          [Line.outlierBand his (100 * (his : ℚ) / (n : ℚ)) BandLabel.highSevere]
        else []))

/-- `report::regression` (src/report.rs lines 56-68): the slope CI line and
one line holding the two R² values, computed from the lower and upper CI
slopes. -/
def reportRegression (d : Data) (bounds : Slope × Slope) : List Line :=
  [Line.slopeCI bounds.1.val bounds.2.val,
   Line.rSquaredLine (bounds.1.r_squared d) (bounds.2.r_squared d)]

/-- `report::abs` (src/report.rs lines 8-16): one line per estimate with the
CI bounds. -/
def reportAbs (es : Estimates) : List Line :=
  es.map (fun p =>
    Line.absLine p.1 p.2.confidence_interval.lower_bound
      p.2.confidence_interval.upper_bound)

/-- The files of one run directory (`new/` or `base/`), spec §3: sample.json
holds the pair of vectors, estimates.json the Statistic → Estimate map,
tukey.json the four fences. -/
structure BenchFiles where
  sampleJson : Option (List ℚ × List ℚ)
  estimatesJson : Option Estimates
  tukeyJson : Option (ℚ × ℚ × ℚ × ℚ)
deriving DecidableEq

/-- A freshly created, empty run directory. -/
def emptyFiles : BenchFiles := ⟨none, none, none⟩

/-- The per-benchmark directory `.criterion/<id>/`: an optional `base/` and
an optional `new/` subdirectory (spec §3). -/
structure BenchDir where
  base : Option BenchFiles
  new : Option BenchFiles
deriving DecidableEq

/-- `rename_new_dir_to_base` (src/analysis/mod.rs lines 268-275): if `base/`
exists remove it (`fs::rmrf`, a recursive delete, modelled from spec §4.6);
then if `new/` exists move it onto `base/` (`fs::mv`, modelled from spec
§4.6). -/
def rename_new_dir_to_base (s : BenchDir) : BenchDir :=
  let s1 := if s.base.isSome then { s with base := none } else s
  if s1.new.isSome then { base := s1.new, new := none } else s1

/-- `fs::mkdirp` of the `new/` directory (modelled from spec §4.6: recursive,
idempotent directory creation; fs.rs is not under src/). -/
def mkdirpNew (s : BenchDir) : BenchDir :=
  if s.new.isSome then s else { s with new := some emptyFiles }

/-- `fs::save` of `new/tukey.json` (modelled from spec §4.6; fs.rs is not
under src/). -/
def saveTukeyJson (s : BenchDir) (v : ℚ × ℚ × ℚ × ℚ) : BenchDir :=
  { s with new := some { s.new.getD emptyFiles with tukeyJson := some v } }

/-- `fs::save` of `new/sample.json` (modelled from spec §4.6; fs.rs is not
under src/). -/
def saveSampleJson (s : BenchDir) (v : List ℚ × List ℚ) : BenchDir :=
  { s with new := some { s.new.getD emptyFiles with sampleJson := some v } }

/-- `fs::save` of `new/estimates.json` (modelled from spec §4.6; fs.rs is
not under src/). -/
def saveEstimatesJson (s : BenchDir) (v : Estimates) : BenchDir :=
  { s with new := some { s.new.getD emptyFiles with estimatesJson := some v } }

/-- `base_dir_exists` (src/analysis/mod.rs lines 164-166): whether the
`base/` directory exists. -/
def base_dir_exists (s : BenchDir) : Bool :=
  s.base.isSome

/-- The plotting configuration (spec §6). -/
inductive Plotting where
  | Enabled
  | Disabled
deriving DecidableEq

/-- `Plotting::is_enabled` (lib.rs, modelled from spec §6). -/
def Plotting.isEnabled : Plotting → Bool
  | Plotting.Enabled => true
  | Plotting.Disabled => false

/-- The recognized configuration options (modelled from spec §6; lib.rs is
not under src/). -/
structure Criterion where
  confidence_level : ℚ
  nresamples : ℕ
  noise_threshold : ℚ
  significance_level : ℚ
  plotting : Plotting

/-- The observable effects of one pipeline run, in program order. -/
inductive Event where
  | routineSample
  | rename
  | mkdirpNew
  | saveTukey
  | plotPdf
  | plotRegression
  | plotAbsDistributions
  | saveSample
  | saveEstimates
  | compareCall
  | plotSummarize
deriving DecidableEq

/-- Events that create the `new/` directory or write an artifact file of the
new run (sample.json, estimates.json, tukey.json). -/
def isNewRunWrite : Event → Bool
  | Event.mkdirpNew => true
  | Event.saveTukey => true
  | Event.saveSample => true
  | Event.saveEstimates => true
  | _ => false

/-- Plot calls of the pipeline. -/
def isPlotEvent : Event → Bool
  | Event.plotPdf => true
  | Event.plotRegression => true
  | Event.plotAbsDistributions => true
  | Event.plotSummarize => true
  | _ => false

/-- Modelled from the spec: `Estimate::new` (estimate.rs is not under src/):
pair each bootstrap distribution with its point estimate; each Estimate
carries the point estimate from the original sample, the percentile CI of
the distribution at the configured level, and the distribution's standard
deviation as standard error (spec §4.5). -/
def Estimate.new (sq : ℚ → ℚ) (distributions : Distributions) (points : List ℚ)
    (cl : ℚ) : Estimates :=
  List.zipWith
    (fun (p : Statistic × List ℚ) (pt : ℚ) =>
      (p.1,
        { confidence_interval :=
            { confidence_level := cl,
              lower_bound := (confidenceInterval p.2 cl).1,
              upper_bound := (confidenceInterval p.2 cl).2 },
          point_estimate := pt,
          standard_error := stdDevQ sq p.2 none }))
    distributions points

/-- `estimates` (src/analysis/mod.rs lines 222-266): the inner `stats`
closure computes (mean, median, mad, std_dev) of a sample; the four point
estimates come from the full sample, the four distributions from one shared
bootstrap (spec §4.5: one index draw per resample shared by all four
statistics), and `Estimate::new` assembles the Estimates map. -/
def estimates (avg_times : List ℚ) (c : Criterion) (draws : List (List ℕ))
    (sq : ℚ → ℚ) : Distributions × Estimates :=
  let stats := fun (sample : List ℚ) =>
    let mean := meanQ sample
    let std_dev := stdDevQ sq sample (some mean)
    let median := medianQ sample
    let mad := medianAbsDev sample (some median)
    (mean, median, mad, std_dev)
  let points :=
    match stats avg_times with
    | (a, b, mad, d) => [a, b, mad, d]
  let boot := draws.map (fun ix => stats (resampleQ avg_times ix))
  let distributions : Distributions :=
    List.zip [Statistic.Mean, Statistic.Median, Statistic.MedianAbsDev, Statistic.StdDev]
      [boot.map (fun t => t.1), boot.map (fun t => t.2.1),
       boot.map (fun t => t.2.2.1), boot.map (fun t => t.2.2.2)]
  (distributions, Estimate.new sq distributions points c.confidence_level)

/-- The outcome of the `regression` stage: the bootstrap distribution and
Estimate it returns, plus its reporter lines and plot events. -/
structure RegressionOut where
  distribution : List ℚ
  estimate : Estimate
  reportLines : List Line
  events : List Event

/-- `regression` (src/analysis/mod.rs lines 169-209): bootstrap the slope
over paired resamples, fit the point estimate on the unresampled data, take
the percentile CI of the distribution at the configured confidence level
and the distribution's standard deviation as standard error; report the CI
slopes; plot only when plotting is enabled. -/
def regression (data : Data) (c : Criterion) (draws : List (List ℕ))
    (sq : ℚ → ℚ) : RegressionOut :=
  let cl := c.confidence_level
  let distribution := draws.map (fun ix => (Slope.fit (resampleData data ix)).val)
  let point := Slope.fit data
  let lb := (confidenceInterval distribution cl).1
  let ub := (confidenceInterval distribution cl).2
  let se := stdDevQ sq distribution none
  let lb2 := Slope.mk lb
  let ub2 := Slope.mk ub
  { distribution := distribution
    estimate :=
      { confidence_interval :=
          { confidence_level := cl, lower_bound := lb, upper_bound := ub }
        point_estimate := point.val
        standard_error := se }
    reportLines := reportRegression data (lb2, ub2)
    events := if c.plotting.isEnabled then [Event.plotRegression] else [] }

/-- `outliers` (src/analysis/mod.rs lines 212-219): classify the averaged
sample, report it, and save the fences to `new/tukey.json`. -/
def outliers (avg_times : List ℚ) (s : BenchDir) : LabeledSample × BenchDir :=
  let sample := tukeyClassify avg_times
  (sample, saveTukeyJson s sample.fences)

/-- Everything observable about one run of `common`: the event trace, the
directory state when the comparison guard is evaluated, and the values
flowing between the stages. -/
structure CommonOut where
  trace : List Event
  stateAtCompare : BenchDir
  avgTimes : List ℚ
  labeled : LabeledSample
  univDistributions : Distributions
  univEstimates : Estimates
  reg : RegressionOut
  distributions : Distributions
  estimates : Estimates
  percentiles : List ℚ

/-- `common` (src/analysis/mod.rs lines 114-162), the analysis driver: draw
the sample from the routine, promote `new/` to `base/`, average the times,
create `new/`, classify outliers (saving tukey.json), plot the PDF when
enabled, regress, estimate the univariate statistics, insert the slope into
both maps, plot the absolute distributions when enabled, save sample.json
and estimates.json, and invoke the comparison when the `base/` directory
exists.  `s0` is the per-benchmark directory before the run; `regDraws` and
`uniDraws` are the bootstrap index draws of the two bootstrap calls. -/
def common (s0 : BenchDir) (iters times : List ℚ) (c : Criterion)
    (regDraws uniDraws : List (List ℕ)) (sq : ℚ → ℚ) : CommonOut :=
  let s1 := rename_new_dir_to_base s0
  let avg_times := List.zipWith (fun i t => t / i) iters times
  let s2 := mkdirpNew s1
  let data : Data := ⟨iters, times⟩
  let ol := outliers avg_times s2
  let labeled_sample := ol.1
  let s3 := ol.2
  let pdfEvents := if c.plotting.isEnabled then [Event.plotPdf] else []
  let reg := regression data c regDraws sq
  let u := estimates avg_times c uniDraws sq
  let estimates2 := mapInsert u.2 Statistic.Slope reg.estimate
  let distributions2 := mapInsert u.1 Statistic.Slope reg.distribution
  let absEvents := if c.plotting.isEnabled then [Event.plotAbsDistributions] else []
  let s4 := saveSampleJson s3 (data.x, data.y)
  let s5 := saveEstimatesJson s4 estimates2
  let compareEvents := if base_dir_exists s5 then [Event.compareCall] else []
  { trace :=
      [Event.routineSample, Event.rename, Event.mkdirpNew, Event.saveTukey]
        ++ pdfEvents ++ reg.events ++ absEvents
        ++ [Event.saveSample, Event.saveEstimates] ++ compareEvents
    stateAtCompare := s5
    avgTimes := avg_times
    labeled := labeled_sample
    univDistributions := u.1
    univEstimates := u.2
    reg := reg
    distributions := distributions2
    estimates := estimates2
    percentiles := sortQ avg_times }

/-- `summarize` (src/analysis/mod.rs lines 34-42): the summarization plot
runs only when plotting is enabled. -/
def summarize (c : Criterion) : List Event :=
  if c.plotting.isEnabled then [Event.plotSummarize] else []

/-- A default configuration used by concrete witnesses: spec §6 defaults
with plotting disabled. -/
def cfgDisabled : Criterion :=
  ⟨95 / 100, 2, 1 / 100, 1 / 20, Plotting.Disabled⟩

lemma zipWith_div_getD (as bs : List ℚ) (i : ℕ) (ha : i < as.length)
    (hb : i < bs.length) :
    (List.zipWith (fun a b => b / a) as bs).getD i 0 = bs.getD i 0 / as.getD i 0 := by
  have hz : i < (List.zipWith (fun a b => b / a) as bs).length := by
    rw [List.length_zipWith]
    omega
  rw [List.getD_eq_getElem?_getD, List.getD_eq_getElem?_getD,
    List.getD_eq_getElem?_getD, List.getElem?_eq_getElem hz,
    List.getElem?_eq_getElem ha, List.getElem?_eq_getElem hb]
  simp [List.getElem_zipWith]

lemma common_trace (b n : Option BenchFiles) (iters times : List ℚ)
    (cl : ℚ) (nr : ℕ) (nt sl : ℚ) (pl : Plotting) (rd ud : List (List ℕ))
    (sq : ℚ → ℚ) :
    (common ⟨b, n⟩ iters times ⟨cl, nr, nt, sl, pl⟩ rd ud sq).trace =
      [Event.routineSample, Event.rename, Event.mkdirpNew, Event.saveTukey]
        ++ (if pl.isEnabled then [Event.plotPdf] else [])
        ++ (if pl.isEnabled then [Event.plotRegression] else [])
        ++ (if pl.isEnabled then [Event.plotAbsDistributions] else [])
        ++ [Event.saveSample, Event.saveEstimates]
        ++ (if n.isSome then [Event.compareCall] else []) := by
  cases b <;> cases n <;> rfl

lemma common_stateAtCompare_base (b n : Option BenchFiles)
    (iters times : List ℚ) (c : Criterion) (rd ud : List (List ℕ))
    (sq : ℚ → ℚ) :
    (common ⟨b, n⟩ iters times c rd ud sq).stateAtCompare.base = n := by
  cases b <;> cases n <;> rfl

/-- C1: in every execution of the analysis driver `common`, the rename of
`new/` to `base/` happens exactly once, and it happens before the creation
of the `new/` directory and before any artifact file of the new run
(tukey.json, sample.json, estimates.json) is written: the unique `rename`
event precedes the first new-run write event of the trace. -/
theorem c1_rename_once_before_writes (s0 : BenchDir) (iters times : List ℚ)
    (c : Criterion) (rd ud : List (List ℕ)) (sq : ℚ → ℚ) :
    (common s0 iters times c rd ud sq).trace.count Event.rename = 1 ∧
    (common s0 iters times c rd ud sq).trace.indexOf Event.rename <
      (common s0 iters times c rd ud sq).trace.findIdx isNewRunWrite := by
  obtain ⟨b, n⟩ := s0
  obtain ⟨cl, nr, nt, sl, pl⟩ := c
  rw [common_trace]
  cases pl <;> cases n <;>
    simp only [Option.isSome_some, Option.isSome_none] <;>
    exact ⟨by decide, by decide⟩

/-- C2 (counterexample): the claim says a benchmark directory with no prior
`new/` is left unchanged, but when `base/` exists and `new/` does not,
`rename_new_dir_to_base` deletes `base/`, changing the state. -/
theorem c2_unchanged_counterexample :
    rename_new_dir_to_base ⟨some emptyFiles, none⟩ ≠ ⟨some emptyFiles, none⟩ := by
  decide

/-- C2 (amended): `rename_new_dir_to_base` removes `base/` if it exists and
then moves `new/` (if it exists) onto `base/`; afterwards `base/` holds
exactly the prior contents of `new/` (nothing when `new/` was absent) and
`new/` is absent, so the state is left unchanged exactly when neither
`base/` nor `new/` existed. -/
theorem c2_rename_promotes (s : BenchDir) :
    rename_new_dir_to_base s = ⟨s.new, none⟩ ∧
    (rename_new_dir_to_base s = s ↔ (s.base = none ∧ s.new = none)) := by
  obtain ⟨b, n⟩ := s
  cases b <;> cases n <;> simp [rename_new_dir_to_base]

/-- C3: the analysis driver builds the averaged sample as
avg_times[i] = times[i] / iters[i] (elementwise division of the zipped
vectors), and this exact vector is the one handed to the Tukey outlier
classification and to the univariate estimator. -/
theorem c3_avg_times_dataflow (s0 : BenchDir) (iters times : List ℚ)
    (c : Criterion) (rd ud : List (List ℕ)) (sq : ℚ → ℚ) :
    (common s0 iters times c rd ud sq).avgTimes =
      List.zipWith (fun i t => t / i) iters times ∧
    (common s0 iters times c rd ud sq).labeled =
      tukeyClassify ((common s0 iters times c rd ud sq).avgTimes) ∧
    ((common s0 iters times c rd ud sq).univDistributions,
      (common s0 iters times c rd ud sq).univEstimates) =
      estimates ((common s0 iters times c rd ud sq).avgTimes) c ud sq ∧
    ∀ i : Fin ((common s0 iters times c rd ud sq).avgTimes.length),
      (common s0 iters times c rd ud sq).avgTimes.getD i 0 =
        times.getD i 0 / iters.getD i 0 := by
  refine ⟨rfl, rfl, rfl, ?_⟩
  intro i
  have hz : (i : ℕ) < (List.zipWith (fun a b => b / a) iters times).length := i.isLt
  rw [List.length_zipWith] at hz
  exact zipWith_div_getD iters times i (by omega) (by omega)

/-- C4 (counterexample): the claim says the Comparator is invoked iff the
file `base/sample.json` exists when the pipeline reaches the comparison
step; but the guard in `common` is `base_dir_exists`, which tests the
`base/` directory.  Starting from a directory whose `new/` exists but holds
no sample.json (an interrupted prior run), the promoted `base/` exists
without sample.json and the Comparator is still invoked. -/
theorem c4_sample_json_counterexample :
    ¬ ((Event.compareCall ∈
          (common ⟨none, some emptyFiles⟩ [1] [2] cfgDisabled [] []
            (fun q => q)).trace) ↔
        (((common ⟨none, some emptyFiles⟩ [1] [2] cfgDisabled [] []
            (fun q => q)).stateAtCompare.base.bind
              (fun f => f.sampleJson)).isSome = true)) := by
  decide

/-- C4 (amended): the Comparator is invoked if and only if the `base/`
directory exists at the time the pipeline reaches the comparison step; when
it does not exist the comparison is skipped and the rest of the run is
unaffected (the non-comparison trace and the computed results do not depend
on the prior directory state at all). -/
theorem c4_compare_guard (s0 t0 : BenchDir) (iters times : List ℚ)
    (c : Criterion) (rd ud : List (List ℕ)) (sq : ℚ → ℚ) :
    ((Event.compareCall ∈ (common s0 iters times c rd ud sq).trace) ↔
      base_dir_exists (common s0 iters times c rd ud sq).stateAtCompare = true) ∧
    (common s0 iters times c rd ud sq).trace.filter
        (fun e => !(decide (e = Event.compareCall))) =
      (common t0 iters times c rd ud sq).trace.filter
        (fun e => !(decide (e = Event.compareCall))) ∧
    (common s0 iters times c rd ud sq).estimates =
      (common t0 iters times c rd ud sq).estimates ∧
    (common s0 iters times c rd ud sq).percentiles =
      (common t0 iters times c rd ud sq).percentiles := by
  obtain ⟨b, n⟩ := s0
  obtain ⟨b2, n2⟩ := t0
  obtain ⟨cl, nr, nt, sl, pl⟩ := c
  refine ⟨?_, ?_, rfl, rfl⟩
  · rw [common_trace]
    simp only [base_dir_exists, common_stateAtCompare_base]
    cases pl <;> cases n <;>
      simp only [Option.isSome_some, Option.isSome_none] <;>
      exact (by decide)
  · rw [common_trace, common_trace]
    cases pl <;> cases n <;> cases n2 <;>
      simp only [Option.isSome_some, Option.isSome_none] <;>
      exact (by decide)

/-- C5: the regression stage returns a Slope Estimate whose distribution is
the bootstrap distribution of the OLS-through-origin slope over paired
resamples, whose point estimate is the OLS fit of the original unresampled
data, whose confidence interval is the percentile CI of that bootstrap
distribution at the configured confidence level, and whose standard error
is the standard deviation of that bootstrap distribution. -/
theorem c5_regression_estimate (data : Data) (c : Criterion)
    (draws : List (List ℕ)) (sq : ℚ → ℚ) :
    (regression data c draws sq).distribution =
      draws.map (fun ix => (Slope.fit (resampleData data ix)).val) ∧
    (regression data c draws sq).estimate.point_estimate = (Slope.fit data).val ∧
    (regression data c draws sq).estimate.confidence_interval =
      { confidence_level := c.confidence_level,
        lower_bound :=
          (confidenceInterval (regression data c draws sq).distribution
            c.confidence_level).1,
        upper_bound :=
          (confidenceInterval (regression data c draws sq).distribution
            c.confidence_level).2 } ∧
    (regression data c draws sq).estimate.standard_error =
      stdDevQ sq (regression data c draws sq).distribution none :=
  ⟨rfl, rfl, rfl, rfl⟩

/-- C6: outlier classification never filters the data: the sample underlying
the labeled sample is exactly the averaged sample, and the univariate
estimator (point statistics and bootstrap distributions alike) runs on that
same full sample, with no hypothesis on how many observations were labeled
as outliers. -/
theorem c6_full_sample_estimation (s0 : BenchDir) (iters times : List ℚ)
    (c : Criterion) (rd ud : List (List ℕ)) (sq : ℚ → ℚ) :
    (common s0 iters times c rd ud sq).labeled.sample =
      (common s0 iters times c rd ud sq).avgTimes ∧
    ((common s0 iters times c rd ud sq).univDistributions,
      (common s0 iters times c rd ud sq).univEstimates) =
      estimates ((common s0 iters times c rd ud sq).labeled.sample) c ud sq ∧
    (common s0 iters times c rd ud sq).labeled =
      tukeyClassify ((common s0 iters times c rd ud sq).labeled.sample) :=
  ⟨rfl, rfl, rfl⟩

/-- C7: after the estimation stage of a run, the Estimates map and the
Distributions map contain exactly the five keys Mean, Median, MedianAbsDev,
StdDev, Slope, each exactly once. -/
theorem c7_estimates_keys (s0 : BenchDir) (iters times : List ℚ)
    (c : Criterion) (rd ud : List (List ℕ)) (sq : ℚ → ℚ) :
    (common s0 iters times c rd ud sq).estimates.map Prod.fst =
      [Statistic.Mean, Statistic.Median, Statistic.MedianAbsDev,
        Statistic.StdDev, Statistic.Slope] ∧
    (common s0 iters times c rd ud sq).distributions.map Prod.fst =
      [Statistic.Mean, Statistic.Median, Statistic.MedianAbsDev,
        Statistic.StdDev, Statistic.Slope] ∧
    ([Statistic.Mean, Statistic.Median, Statistic.MedianAbsDev,
        Statistic.StdDev, Statistic.Slope] : List Statistic).Nodup :=
  ⟨rfl, rfl, by decide⟩

/-- C8: the regression report consists of the slope CI line followed by one
line holding exactly two R² values, computed from the lower-bound slope and
the upper-bound slope of the confidence interval (not from the point
estimate). -/
theorem c8_regression_report (data : Data) (c : Criterion)
    (draws : List (List ℕ)) (sq : ℚ → ℚ) :
    (regression data c draws sq).reportLines =
      [Line.slopeCI
          (confidenceInterval (regression data c draws sq).distribution
            c.confidence_level).1
          (confidenceInterval (regression data c draws sq).distribution
            c.confidence_level).2,
        Line.rSquaredLine
          ((Slope.mk ((confidenceInterval
              (regression data c draws sq).distribution
              c.confidence_level).1)).r_squared data)
          ((Slope.mk ((confidenceInterval
              (regression data c draws sq).distribution
              c.confidence_level).2)).r_squared data)] :=
  rfl

/-- C9: when plotting is Disabled, no plot call is made anywhere in the
pipeline: the trace of `common` contains no plot event (PDF, regression,
absolute distributions) and `summarize` makes no plot call either. -/
theorem c9_plotting_disabled (s0 : BenchDir) (iters times : List ℚ)
    (c : Criterion) (rd ud : List (List ℕ)) (sq : ℚ → ℚ)
    (h : c.plotting = Plotting.Disabled) :
    (common s0 iters times c rd ud sq).trace.filter isPlotEvent = [] ∧
    summarize c = [] := by
  obtain ⟨b, n⟩ := s0
  obtain ⟨cl, nr, nt, sl, pl⟩ := c
  have hp : pl = Plotting.Disabled := h
  subst hp
  refine ⟨?_, by simp [summarize, Plotting.isEnabled]⟩
  rw [common_trace]
  cases n <;>
    simp only [Option.isSome_some, Option.isSome_none] <;>
    exact (by decide)

/-- C9 witness: a concrete disabled-plotting run with no plot events. -/
theorem c9_plotting_disabled_witness :
    cfgDisabled.plotting = Plotting.Disabled ∧
    ((common ⟨none, none⟩ [1] [2] cfgDisabled [] [] (fun q => q)).trace.filter
        isPlotEvent = [] ∧
      summarize cfgDisabled = []) :=
  ⟨rfl, c9_plotting_disabled ⟨none, none⟩ [1] [2] cfgDisabled [] [] (fun q => q) rfl⟩

/-- C10: the outlier reporter prints nothing at all (not even the summary
line) exactly when the total outlier count is zero; and a band line appears
in its output exactly when outliers exist and that band's count is
non-zero. -/
theorem c10_outlier_report (s : LabeledSample) :
    (reportOutliers s = [] ↔ totalOutliers s = 0) ∧
    ∀ b : BandLabel,
      ((∃ k pct, Line.outlierBand k pct b ∈ reportOutliers s) ↔
        (totalOutliers s ≠ 0 ∧ bandCount s b ≠ 0)) := by
  rcases hc : s.count with ⟨los, lom, nrm, him, his⟩
  constructor
  · by_cases h : los + lom + him + his = 0 <;>
      simp [reportOutliers, totalOutliers, hc, h]
  · intro b
    by_cases h : los + lom + him + his = 0
    · simp [reportOutliers, totalOutliers, hc, h]
    · simp only [reportOutliers, totalOutliers, bandCount, hc, h, if_false,
        ne_eq, not_false_iff, true_and]
      cases b <;> split_ifs <;>
        simp_all [List.mem_append, List.mem_cons]

end Crit
